import Mathlib

/-!
Shallow embedding of the qmlwebsockets_threaded repository:
the QML-facing connection facade (qqmlwebsocketthreaded.cpp,
qwebsocketthreaded.cpp) and the server-side handshake pipeline
(qwebsocketserver.cpp), with theorems about the claims of the spec.
-/

namespace QmlWebSockets

/-- Externally observed connection status (QQmlWebSocketThreaded::Status). -/
inductive Status
  | Connecting
  | Open
  | Closing
  | Closed
  | Error
deriving DecidableEq, Repr

/-- Engine-native socket states (QAbstractSocket::SocketState). -/
inductive SocketState
  | UnconnectedState
  | HostLookupState
  | ConnectingState
  | ConnectedState
  | BoundState
  | ListeningState
  | ClosingState
deriving DecidableEq, Repr

/-- Signals emitted by QQmlWebSocketThreaded that the claims observe. -/
inductive Signal
  | statusChanged (status : Status)
  | errorStringChanged (e : String)
deriving DecidableEq, Repr

/-- Observable state of a QQmlWebSocketThreaded instance:
the m_status and m_errorString members. -/
structure QmlState where
  status : Status
  errorString : String
deriving DecidableEq, Repr

/-- QQmlWebSocketThreaded::setErrorString: assigns m_errorString and emits
errorStringChanged, unless the new value equals the current one. -/
def setErrorString (s : QmlState) (e : String) : QmlState × List Signal :=
  if s.errorString = e then (s, [])
  else ({ s with errorString := e }, [Signal.errorStringChanged e])

/-- QQmlWebSocketThreaded::setStatus: early-returns when the status is
unchanged; otherwise assigns m_status, clears the error string when the
new status is not Error (the source guard is `status != Error`; the
no-argument setErrorString call clears to the empty string), and emits
statusChanged. -/
def setStatus (s : QmlState) (status : Status) : QmlState × List Signal :=
  if s.status = status then (s, [])
  else
    let s1 : QmlState := { s with status := status }
    let cleared : QmlState × List Signal :=
      if status = Status.Error then (s1, []) else setErrorString s1 ""
    (cleared.1, cleared.2 ++ [Signal.statusChanged status])

theorem setErrorString_fst_errorString (s : QmlState) (e : String) :
    (setErrorString s e).1.errorString = e := by
  unfold setErrorString
  split <;> simp_all

theorem setErrorString_fst_status (s : QmlState) (e : String) :
    (setErrorString s e).1.status = s.status := by
  unfold setErrorString
  split <;> simp_all

theorem setStatus_fst_status (s : QmlState) (status : Status) :
    (setStatus s status).1.status = status := by
  unfold setStatus
  split
  · simp_all
  · split <;> simp_all [setErrorString_fst_status]

theorem setStatus_error_fst_errorString (s : QmlState) :
    (setStatus s Status.Error).1.errorString = s.errorString := by
  unfold setStatus
  split <;> simp_all

/-- The error description set by the send precondition check
(qqmlwebsocketthreaded.cpp, tr call in sendTextMessage/sendBinaryMessage). -/
def invalidStateMessage : String := "Messages can only be sent when the socket is open."

/-- The error description set by QQmlWebSocketThreaded::classBegin. -/
def notReadyMessage : String := "QQmlWebSocketThreaded is not ready."

/-- Result of a send call on QQmlWebSocketThreaded: the resulting state,
the emitted signals, the returned qint64, and whether the send command was
forwarded to the worker-thread engine. -/
structure SendResult where
  state : QmlState
  signals : List Signal
  ret : Int
  engineSendInvoked : Bool
deriving DecidableEq, Repr

/-- QQmlWebSocketThreaded::sendTextMessage: when m_status is not Open,
sets the invalid-state error string, sets status Error and returns 0
without touching the engine; otherwise forwards to
QWebSocketThreaded::sendTextMessage, which emits the command to the worker
thread and returns -1. -/
def sendTextMessage (s : QmlState) (message : String) : SendResult :=
  if s.status = Status.Open then
    { state := s, signals := [], ret := -1, engineSendInvoked := true }
  else
    let e := setErrorString s invalidStateMessage
    let st := setStatus e.1 Status.Error
    { state := st.1, signals := e.2 ++ st.2, ret := 0, engineSendInvoked := false }

/-- QQmlWebSocketThreaded::sendBinaryMessage: same structure as
sendTextMessage, with a QByteArray payload. -/
def sendBinaryMessage (s : QmlState) (message : List Nat) : SendResult :=
  if s.status = Status.Open then
    { state := s, signals := [], ret := -1, engineSendInvoked := true }
  else
    let e := setErrorString s invalidStateMessage
    let st := setStatus e.1 Status.Error
    { state := st.1, signals := e.2 ++ st.2, ret := 0, engineSendInvoked := false }

/-- QWebSocketThreaded::errorString returns m_errorString, which no code
path in qwebsocketthreaded.cpp ever assigns (the relay is marked TODO in
the source), so it is always the default-constructed empty QString. -/
def engineFacadeErrorString : String := ""

/-- QQmlWebSocketThreaded::onError: copies the engine facade error string
(always empty, see engineFacadeErrorString) into m_errorString, then sets
status Error. -/
def onError (s : QmlState) : QmlState × List Signal :=
  let e := setErrorString s engineFacadeErrorString
  let st := setStatus e.1 Status.Error
  (st.1, e.2 ++ st.2)

/-- The engine-state-to-status translation performed by
QQmlWebSocketThreaded::onStateChanged: Connecting/Bound/HostLookup map to
Connecting, Unconnected to Closed, Connected to Open, Closing to Closing,
and every remaining state (the default case) to Connecting. -/
def mapSocketState : SocketState → Status
  | SocketState.ConnectingState => Status.Connecting
  | SocketState.BoundState => Status.Connecting
  | SocketState.HostLookupState => Status.Connecting
  | SocketState.UnconnectedState => Status.Closed
  | SocketState.ConnectedState => Status.Open
  | SocketState.ClosingState => Status.Closing
  | SocketState.ListeningState => Status.Connecting

/-- QQmlWebSocketThreaded::onStateChanged: translates the relayed engine
state and calls setStatus. -/
def onStateChanged (s : QmlState) (state : SocketState) : QmlState × List Signal :=
  setStatus s (mapSocketState state)

/-- The statuses carried by the statusChanged signals of an emission list,
in order. -/
def statusSignals (sigs : List Signal) : List Status :=
  sigs.filterMap fun sig =>
    match sig with
    | Signal.statusChanged st => some st
    | Signal.errorStringChanged _ => none

theorem statusSignals_setErrorString (s : QmlState) (e : String) :
    statusSignals (setErrorString s e).2 = [] := by
  unfold setErrorString
  split <;> simp [statusSignals]

/-- The default maximum of pending accepted connections
(QTcpServer::maxPendingConnections, documented as 30 in
qwebsocketserver.cpp). -/
def defaultMaxPendingConnections : Nat := 30

/-- Observable state of a QWebSocketServer: the configured maximum of
pending connections and the m_pendingConnections queue (front first);
upgraded QWebSocket instances are identified by abstract ids. -/
structure ServerState where
  maxPendingConnections : Nat
  pendingConnections : List Nat
deriving DecidableEq, Repr

/-- QWebSocketServer::addPendingConnection: enqueues the socket only when
the queue size is strictly below maxPendingConnections; otherwise the call
does nothing. -/
def addPendingConnection (s : ServerState) (pWebSocket : Nat) : ServerState :=
  if s.pendingConnections.length < s.maxPendingConnections then
    { s with pendingConnections := s.pendingConnections ++ [pWebSocket] }
  else s

/-- QWebSocketServer::nextPendingConnection: returns the null pointer
(none) on an empty queue, otherwise dequeues and returns the front. -/
def nextPendingConnection (s : ServerState) : Option Nat × ServerState :=
  match s.pendingConnections with
  | [] => (none, s)
  | w :: rest => (some w, { s with pendingConnections := rest })

/-- QWebSocketServer::hasPendingConnections: the queue is non-empty. -/
def hasPendingConnections (s : ServerState) : Bool :=
  !s.pendingConnections.isEmpty

/-- An operation mutating the pending queue: an upgrade completion calling
addPendingConnection, or an accept call (nextPendingConnection). -/
inductive ServerOp
  | add (pWebSocket : Nat)
  | accept
deriving DecidableEq, Repr

/-- One queue operation on the server state. -/
def serverStep (s : ServerState) : ServerOp → ServerState
  | ServerOp.add w => addPendingConnection s w
  | ServerOp.accept => (nextPendingConnection s).2

/-- QWebSocketServer::isOriginAllowed: the default policy ignores the
origin and returns true. -/
def isOriginAllowed (origin : String) : Bool := true

/-- Observable outcome of one QWebSocketServer::handshakeReceived
invocation: the resulting server state and the externally visible actions
taken on the sockets involved. -/
structure HandshakeOutcome where
  server : ServerState
  responseWritten : Bool
  socketClosed : Bool
  webSocketClosedGoingAway : Bool
  newConnectionEmitted : Bool
  upgraded : Bool
deriving DecidableEq, Repr

/-- QWebSocketServer::handshakeReceived, with the response flags
(isValid, canUpgrade) and the success of QWebSocket::upgradeFrom taken as
inputs: when the response is valid it is written and flushed; when it can
upgrade and upgradeFrom succeeds, the new QWebSocket is parented to the
server, addPendingConnection is called and newConnection is emitted
(success); in every non-success path the raw TCP socket is closed. No
path closes the upgraded QWebSocket with a going-away code. -/
def handshakeReceived (s : ServerState) (isValid canUpgrade upgradeOk : Bool)
    (pWebSocket : Nat) : HandshakeOutcome :=
  if isValid then
    if canUpgrade then
      if upgradeOk then
        { server := addPendingConnection s pWebSocket
          responseWritten := true
          socketClosed := false
          webSocketClosedGoingAway := false
          newConnectionEmitted := true
          upgraded := true }
      else
        { server := s
          responseWritten := true
          socketClosed := true
          webSocketClosedGoingAway := false
          newConnectionEmitted := false
          upgraded := false }
    else
      { server := s
        responseWritten := true
        socketClosed := true
        webSocketClosedGoingAway := false
        newConnectionEmitted := false
        upgraded := false }
  else
    { server := s
      responseWritten := false
      socketClosed := true
      webSocketClosedGoingAway := false
      newConnectionEmitted := false
      upgraded := false }

/-- Modelled from the spec: the HandshakeRequest value object
(handshakerequest_p.h is part of this repository but not under src/),
reduced to the fields the validation of section 4.2 reads. -/
structure HandshakeRequest where
  methodIsGet : Bool
  upgradeIsWebsocket : Bool
  connectionContainsUpgrade : Bool
  secWebSocketKey : Option String
  secWebSocketVersion : Nat
  origin : String
deriving DecidableEq, Repr

/-- Modelled from the spec: the upgradeability verdict of the
HandshakeResponse constructor (handshakeresponse_p.h is part of this
repository but not under src/): GET method, Upgrade websocket header,
Connection header containing Upgrade, Sec-WebSocket-Key present,
supported Sec-WebSocket-Version, and an allowed origin. -/
def canUpgradeRequest (r : HandshakeRequest) (originAllowed : Bool)
    (supportedVersions : List Nat) : Bool :=
  r.methodIsGet && r.upgradeIsWebsocket && r.connectionContainsUpgrade &&
    r.secWebSocketKey.isSome &&
    supportedVersions.contains r.secWebSocketVersion && originAllowed

/-- Modelled from the spec: the HTTP status line of the handshake
response, 101 on upgrade and a 400-class rejection status otherwise. -/
def responseStatusCode (canUpgrade : Bool) : Nat :=
  if canUpgrade then 101 else 400

theorem serverStep_max (s : ServerState) (op : ServerOp) :
    (serverStep s op).maxPendingConnections = s.maxPendingConnections := by
  obtain ⟨m, q⟩ := s
  cases op with
  | add w =>
    simp only [serverStep, addPendingConnection]
    split <;> rfl
  | accept =>
    cases q <;> rfl

theorem serverStep_length_le (s : ServerState) (op : ServerOp)
    (h : s.pendingConnections.length ≤ s.maxPendingConnections) :
    (serverStep s op).pendingConnections.length ≤ s.maxPendingConnections := by
  obtain ⟨m, q⟩ := s
  cases op with
  | add w =>
    simp only [serverStep, addPendingConnection]
    split
    · next hlt =>
      simp only [List.length_append, List.length_cons, List.length_nil] at hlt ⊢
      omega
    · exact h
  | accept =>
    cases q with
    | nil => exact h
    | cons a rest =>
      show rest.length ≤ m
      simp only [List.length_cons] at h
      omega

theorem serverSteps_invariant (ops : List ServerOp) (s : ServerState)
    (h : s.pendingConnections.length ≤ s.maxPendingConnections) :
    (ops.foldl serverStep s).maxPendingConnections = s.maxPendingConnections ∧
    (ops.foldl serverStep s).pendingConnections.length ≤ s.maxPendingConnections := by
  induction ops generalizing s with
  | nil => exact ⟨rfl, h⟩
  | cons op rest ih =>
    have hmax := serverStep_max s op
    have hlen := serverStep_length_le s op h
    have := ih (serverStep s op) (by rw [hmax]; exact hlen)
    simp only [List.foldl_cons]
    exact ⟨by rw [this.1, hmax], by rw [← hmax]; exact this.2⟩

/-- Claim C1: whenever the externally observed status is not Open, both
sendTextMessage and sendBinaryMessage fail synchronously: they record the
invalid-state error description, end in status Error, return 0, and never
forward the send to the worker-thread engine. -/
theorem sendWhileNotOpenFailsFast (s : QmlState) (message : String)
    (bytes : List Nat) (h : s.status ≠ Status.Open) :
    (sendTextMessage s message).state.status = Status.Error ∧
    (sendTextMessage s message).state.errorString = invalidStateMessage ∧
    (sendTextMessage s message).ret = 0 ∧
    (sendTextMessage s message).engineSendInvoked = false ∧
    (sendBinaryMessage s bytes).state.status = Status.Error ∧
    (sendBinaryMessage s bytes).state.errorString = invalidStateMessage ∧
    (sendBinaryMessage s bytes).ret = 0 ∧
    (sendBinaryMessage s bytes).engineSendInvoked = false := by
  unfold sendTextMessage sendBinaryMessage
  rw [if_neg h]
  refine ⟨?_, ?_, rfl, rfl, ?_, ?_, rfl, rfl⟩ <;>
    simp [setStatus_fst_status, setStatus_error_fst_errorString,
      setErrorString_fst_errorString]

/-- Witness for C1 at the concrete closed state. -/
theorem sendWhileNotOpenFailsFast_witness :
    (QmlState.mk Status.Closed "").status ≠ Status.Open ∧
    ((sendTextMessage (QmlState.mk Status.Closed "") "hi").state.status = Status.Error ∧
     (sendTextMessage (QmlState.mk Status.Closed "") "hi").state.errorString = invalidStateMessage ∧
     (sendTextMessage (QmlState.mk Status.Closed "") "hi").ret = 0 ∧
     (sendTextMessage (QmlState.mk Status.Closed "") "hi").engineSendInvoked = false ∧
     (sendBinaryMessage (QmlState.mk Status.Closed "") [0, 1]).state.status = Status.Error ∧
     (sendBinaryMessage (QmlState.mk Status.Closed "") [0, 1]).state.errorString = invalidStateMessage ∧
     (sendBinaryMessage (QmlState.mk Status.Closed "") [0, 1]).ret = 0 ∧
     (sendBinaryMessage (QmlState.mk Status.Closed "") [0, 1]).engineSendInvoked = false) :=
  ⟨by decide, sendWhileNotOpenFailsFast (QmlState.mk Status.Closed "") "hi" [0, 1] (by decide)⟩

/-- Claim C2: starting from any state satisfying the bound, no sequence of
upgrade completions (addPendingConnection) and accept calls
(nextPendingConnection) makes the pending queue exceed the configured
maximum; and when the queue is at the maximum, addPendingConnection
refuses the insertion and leaves the state unchanged. -/
theorem pendingQueueNeverExceedsMax (s : ServerState) (ops : List ServerOp)
    (w : Nat) (h : s.pendingConnections.length ≤ s.maxPendingConnections) :
    (ops.foldl serverStep s).pendingConnections.length ≤ s.maxPendingConnections ∧
    (s.pendingConnections.length = s.maxPendingConnections →
      addPendingConnection s w = s) := by
  refine ⟨(serverSteps_invariant ops s h).2, fun hfull => ?_⟩
  unfold addPendingConnection
  rw [if_neg]
  rw [hfull]
  exact Nat.lt_irrefl _

/-- Witness for C2 at a concrete full queue of capacity one. -/
theorem pendingQueueNeverExceedsMax_witness :
    (ServerState.mk 1 [5]).pendingConnections.length ≤
      (ServerState.mk 1 [5]).maxPendingConnections ∧
    (([ServerOp.add 7, ServerOp.accept, ServerOp.add 8].foldl serverStep
        (ServerState.mk 1 [5])).pendingConnections.length ≤
      (ServerState.mk 1 [5]).maxPendingConnections ∧
     ((ServerState.mk 1 [5]).pendingConnections.length =
        (ServerState.mk 1 [5]).maxPendingConnections →
      addPendingConnection (ServerState.mk 1 [5]) 9 = ServerState.mk 1 [5])) :=
  ⟨by decide,
   pendingQueueNeverExceedsMax (ServerState.mk 1 [5])
     [ServerOp.add 7, ServerOp.accept, ServerOp.add 8] 9 (by decide)⟩

/-- Counterexample to claim C3: at a full queue (capacity 1, one pending
connection), a successful upgrade is neither enqueued nor closed: no
going-away close is issued on the upgraded websocket, the raw socket is
not closed (success path), and newConnection is still emitted. -/
theorem upgradeOnFullQueueNotClosed_cex :
    (handshakeReceived (ServerState.mk 1 [5]) true true true 7).server =
      ServerState.mk 1 [5] ∧
    (handshakeReceived (ServerState.mk 1 [5]) true true true 7).webSocketClosedGoingAway
      = false ∧
    (handshakeReceived (ServerState.mk 1 [5]) true true true 7).socketClosed = false ∧
    (handshakeReceived (ServerState.mk 1 [5]) true true true 7).newConnectionEmitted
      = true := by
  decide

/-- Claim C3 amended: whenever a handshake upgrade succeeds with the
pending queue full, the connection is not enqueued (the queue is
unchanged) but it is not closed either: no going-away close is issued,
the raw socket stays open, and newConnection is still emitted; the
upgraded socket merely remains a child of the server. -/
theorem upgradeOnFullQueueSilentlyDiscarded (s : ServerState) (pWebSocket : Nat)
    (h : s.maxPendingConnections ≤ s.pendingConnections.length) :
    (handshakeReceived s true true true pWebSocket).server = s ∧
    (handshakeReceived s true true true pWebSocket).webSocketClosedGoingAway = false ∧
    (handshakeReceived s true true true pWebSocket).socketClosed = false ∧
    (handshakeReceived s true true true pWebSocket).newConnectionEmitted = true := by
  refine ⟨?_, rfl, rfl, rfl⟩
  show addPendingConnection s pWebSocket = s
  unfold addPendingConnection
  rw [if_neg]
  omega

/-- Witness for the amended C3 at a concrete full queue. -/
theorem upgradeOnFullQueueSilentlyDiscarded_witness :
    (ServerState.mk 2 [3, 4]).maxPendingConnections ≤
      (ServerState.mk 2 [3, 4]).pendingConnections.length ∧
    ((handshakeReceived (ServerState.mk 2 [3, 4]) true true true 9).server =
       ServerState.mk 2 [3, 4] ∧
     (handshakeReceived (ServerState.mk 2 [3, 4]) true true true 9).webSocketClosedGoingAway
       = false ∧
     (handshakeReceived (ServerState.mk 2 [3, 4]) true true true 9).socketClosed = false ∧
     (handshakeReceived (ServerState.mk 2 [3, 4]) true true true 9).newConnectionEmitted
       = true) :=
  ⟨by decide, upgradeOnFullQueueSilentlyDiscarded (ServerState.mk 2 [3, 4]) 9 (by decide)⟩

/-- Claim C4, code-level behaviour at the failing input class: a relayed
engine error event (QQmlWebSocketThreaded::onError) always enters the
Error status with an empty error description, because
QWebSocketThreaded::errorString is never assigned. This contradicts the
claim that every entry into Error carries a non-empty description. -/
theorem errorEventEntersErrorWithEmptyDescription (s : QmlState) :
    (onError s).1.status = Status.Error ∧ (onError s).1.errorString = "" := by
  unfold onError
  refine ⟨setStatus_fst_status _ _, ?_⟩
  simp only [setStatus_error_fst_errorString]
  exact setErrorString_fst_errorString s engineFacadeErrorString

/-- Counterexample to claim C5: setStatus with the current status is an
early-returning no-op, so a previously recorded error description
survives a setStatus call whose argument is not Error. The state is
reachable: classBegin leaves status Closed with the not-ready message,
and a relayed Unconnected engine state then calls setStatus(Closed). -/
theorem setStatusNoopKeepsErrorString_cex :
    Status.Closed ≠ Status.Error ∧
    notReadyMessage ≠ "" ∧
    (setStatus (QmlState.mk Status.Closed notReadyMessage) Status.Closed).1.errorString
      = notReadyMessage := by
  refine ⟨by decide, by decide, rfl⟩

/-- Claim C5 amended: after setStatus(s) with s neither Error nor equal
to the current status, the error description is cleared to the empty
string regardless of its previous value (and the status becomes s); when
s equals the current status, setStatus leaves the state unchanged. -/
theorem setStatusChangeClearsErrorString (s : QmlState) (status : Status)
    (herr : status ≠ Status.Error) (hch : status ≠ s.status) :
    (setStatus s status).1.errorString = "" ∧
    (setStatus s status).1.status = status := by
  refine ⟨?_, setStatus_fst_status _ _⟩
  unfold setStatus
  rw [if_neg (fun hc => hch hc.symm)]
  simp [herr, setErrorString_fst_errorString]

/-- Witness for the amended C5: a stale description is cleared by a real
transition to Connecting. -/
theorem setStatusChangeClearsErrorString_witness :
    Status.Connecting ≠ Status.Error ∧
    Status.Connecting ≠ (QmlState.mk Status.Closed notReadyMessage).status ∧
    ((setStatus (QmlState.mk Status.Closed notReadyMessage) Status.Connecting).1.errorString
       = "" ∧
     (setStatus (QmlState.mk Status.Closed notReadyMessage) Status.Connecting).1.status
       = Status.Connecting) :=
  ⟨by decide, by decide,
   setStatusChangeClearsErrorString (QmlState.mk Status.Closed notReadyMessage)
     Status.Connecting (by decide) (by decide)⟩

/-- Counterexample to claim C6: an engine stateChanged event does not
always produce a status notification. With the facade already at status
Connecting, a relayed HostLookupState event (a real engine state change,
for example from ConnectingState) maps to Connecting again and setStatus
emits nothing, so the event produces zero notifications instead of
exactly one. -/
theorem stateChangedRelayDropsDuplicate_cex :
    (onStateChanged (QmlState.mk Status.Connecting "") SocketState.HostLookupState).2
      = [] := by
  decide

/-- Claim C6 amended: the facade translates each relayed engine
stateChanged event through the fixed state-to-status map and emits
exactly one status notification carrying the mapped status when it
differs from the current status, and none when it does not (events whose
mapped status equals the current one are coalesced away); the stored
status always becomes the mapped status. -/
theorem stateChangedRelayCoalesces (s : QmlState) (state : SocketState) :
    (onStateChanged s state).1.status = mapSocketState state ∧
    statusSignals (onStateChanged s state).2 =
      (if mapSocketState state = s.status then [] else [mapSocketState state]) := by
  refine ⟨setStatus_fst_status _ _, ?_⟩
  unfold onStateChanged setStatus
  by_cases hdup : s.status = mapSocketState state
  · rw [if_pos hdup, if_pos hdup.symm]
    rfl
  · rw [if_neg hdup, if_neg (fun hc => hdup hc.symm)]
    simp only [statusSignals, List.filterMap_append]
    by_cases herr : mapSocketState state = Status.Error
    · rw [if_pos herr]
      rfl
    · rw [if_neg herr]
      have hset := statusSignals_setErrorString
        (QmlState.mk (mapSocketState state) s.errorString) ""
      simp only [statusSignals] at hset
      rw [hset]
      rfl

/-- Claim C7: a handshake request missing the Sec-WebSocket-Key header is
never upgradeable: the response is a non-101 rejection, it is written and
flushed, the stream is never promoted (no upgrade, queue unchanged, no
newConnection), and the raw socket is closed afterward. -/
theorem missingKeyRequestRejected (r : HandshakeRequest) (s : ServerState)
    (originAllowed : Bool) (supportedVersions : List Nat) (pWebSocket : Nat)
    (h : r.secWebSocketKey = none) :
    canUpgradeRequest r originAllowed supportedVersions = false ∧
    responseStatusCode (canUpgradeRequest r originAllowed supportedVersions) ≠ 101 ∧
    (handshakeReceived s true (canUpgradeRequest r originAllowed supportedVersions)
      true pWebSocket).upgraded = false ∧
    (handshakeReceived s true (canUpgradeRequest r originAllowed supportedVersions)
      true pWebSocket).responseWritten = true ∧
    (handshakeReceived s true (canUpgradeRequest r originAllowed supportedVersions)
      true pWebSocket).newConnectionEmitted = false ∧
    (handshakeReceived s true (canUpgradeRequest r originAllowed supportedVersions)
      true pWebSocket).socketClosed = true ∧
    (handshakeReceived s true (canUpgradeRequest r originAllowed supportedVersions)
      true pWebSocket).server = s := by
  have hcu : canUpgradeRequest r originAllowed supportedVersions = false := by
    simp [canUpgradeRequest, h]
  rw [hcu]
  refine ⟨rfl, by decide, ?_, ?_, ?_, ?_, ?_⟩ <;> rfl

/-- Witness for C7 at a concrete keyless request. -/
theorem missingKeyRequestRejected_witness :
    (HandshakeRequest.mk true true true none 13 "o").secWebSocketKey = none ∧
    (canUpgradeRequest (HandshakeRequest.mk true true true none 13 "o") true [13]
       = false ∧
     responseStatusCode
        (canUpgradeRequest (HandshakeRequest.mk true true true none 13 "o") true [13])
       ≠ 101 ∧
     (handshakeReceived (ServerState.mk 30 [])
        true (canUpgradeRequest (HandshakeRequest.mk true true true none 13 "o") true [13])
        true 1).upgraded = false ∧
     (handshakeReceived (ServerState.mk 30 [])
        true (canUpgradeRequest (HandshakeRequest.mk true true true none 13 "o") true [13])
        true 1).responseWritten = true ∧
     (handshakeReceived (ServerState.mk 30 [])
        true (canUpgradeRequest (HandshakeRequest.mk true true true none 13 "o") true [13])
        true 1).newConnectionEmitted = false ∧
     (handshakeReceived (ServerState.mk 30 [])
        true (canUpgradeRequest (HandshakeRequest.mk true true true none 13 "o") true [13])
        true 1).socketClosed = true ∧
     (handshakeReceived (ServerState.mk 30 [])
        true (canUpgradeRequest (HandshakeRequest.mk true true true none 13 "o") true [13])
        true 1).server = ServerState.mk 30 []) :=
  ⟨rfl, missingKeyRequestRejected (HandshakeRequest.mk true true true none 13 "o")
    (ServerState.mk 30 []) true [13] 1 rfl⟩

/-- Claim C9: the default origin policy accepts every origin string. -/
theorem defaultOriginPolicyAllowsAll (origin : String) :
    isOriginAllowed origin = true := rfl

/-- Claim C10: nextPendingConnection returns the front of the queue when
one exists and the null pointer otherwise, leaves the maximum unchanged
and the queue equal to its tail (so an empty queue is left unchanged and
connections are handed out in enqueue order), and hasPendingConnections
agrees with nextPendingConnection returning a connection. -/
theorem nextPendingConnectionFifo (s : ServerState) :
    (nextPendingConnection s).1 = s.pendingConnections.head? ∧
    (nextPendingConnection s).2 =
      ServerState.mk s.maxPendingConnections s.pendingConnections.tail ∧
    hasPendingConnections s = (nextPendingConnection s).1.isSome := by
  obtain ⟨m, q⟩ := s
  cases q <;> simp [nextPendingConnection, hasPendingConnections]

end QmlWebSockets





